import Mathlib

/-!
Shallow embedding of the SP-API client core of this repository: the token
manager and signing-credentials resolver (src/lib/sp-api/auth.ts, together
with an older unnamed variant of the same module), and the rate limiter and
request executor (src/lib/utils.ts).  Machine time is modelled as integer
milliseconds, environment variables as optional strings, and network effects
as explicit inputs (fetch outcomes supplied as arguments) and outputs (event
traces and network-call counts returned alongside the result).
-/

namespace SystemSeller

/-- Slice of process.env read by the authentication module.  Each variable is
either absent (`none`) or present with a string value. -/
structure Env where
  lwaClientId : Option String
  lwaClientSecret : Option String
  refreshToken : Option String
  sellerId : Option String
  marketplaceId : Option String
  awsAccessKeyId : Option String
  awsSecretAccessKey : Option String
  awsRoleArn : Option String

/-- JavaScript truthiness of an environment variable: an absent variable and an
empty-string variable are both falsy, every other string is truthy. -/
def truthy : Option String → Bool
  | none => false
  | some s => s != ""

/-- Lookup of process.env by variable name, restricted to the keys the
authentication module reads. -/
def Env.get (env : Env) (key : String) : Option String :=
  if key = "LWA_CLIENT_ID" then env.lwaClientId
  else if key = "LWA_CLIENT_SECRET" then env.lwaClientSecret
  else if key = "REFRESH_TOKEN" then env.refreshToken
  else if key = "SELLER_ID" then env.sellerId
  else if key = "MARKETPLACE_ID" then env.marketplaceId
  else if key = "AWS_ACCESS_KEY_ID" then env.awsAccessKeyId
  else if key = "AWS_SECRET_ACCESS_KEY" then env.awsSecretAccessKey
  else if key = "AWS_ROLE_ARN" then env.awsRoleArn
  else none

/-- JavaScript `response.ok` on a fetch reply: the status is in the 2xx
range. -/
def statusOk (status : Nat) : Bool :=
  decide (200 ≤ status ∧ status ≤ 299)

/-! ### Token manager (src/lib/sp-api/auth.ts, getAccessToken) -/

/-- Module-level cache entry `CachedToken` of auth.ts. -/
structure CachedToken where
  accessToken : String
  expiresAt : Int

/-- Parsed JSON body `TokenResponse` of a successful LWA token-endpoint reply
(the fields the code reads). -/
structure TokenResponse where
  access_token : String
  expires_in : Int

/-- Outcome of the token-refresh fetch against the identity provider, supplied
to the embedding as an input: a transport-level exception, a reply with a
non-2xx status (whose body text the code reads), or a 2xx reply with a parsed
`TokenResponse` body. -/
inductive RefreshOutcome where
  | transportError (msg : String)
  | httpError (body : String)
  | success (data : TokenResponse)

/-- Result of one `getAccessToken` call: the returned value or thrown error,
the cache state after the call, and how many network calls to the identity
provider the call made. -/
structure TokenCallResult where
  result : Except String String
  state : Option CachedToken
  networkCalls : Nat

/-- Validity test of the cached token performed at auth.ts line 26:
`cachedToken && cachedToken.expiresAt > Date.now() + 60000`. -/
def cacheValid (now : Int) : Option CachedToken → Bool
  | none => false
  | some tok => decide (tok.expiresAt > now + 60000)

/-- Refresh path of `getAccessToken` (auth.ts lines 31-57): one POST to the
token endpoint; a thrown error on transport failure; a thrown
`Failed to refresh token: <body>` error on non-ok status, leaving the cache
untouched; on success the new token is cached with
`expiresAt = now + expires_in * 1000` and its value returned. -/
def refreshAccessToken (now : Int) (st : Option CachedToken) :
    RefreshOutcome → TokenCallResult
  | .transportError msg => ⟨Except.error msg, st, 1⟩
  | .httpError body =>
      ⟨Except.error ("Failed to refresh token: " ++ body), st, 1⟩
  | .success data =>
      let newTok : CachedToken :=
        ⟨data.access_token, now + data.expires_in * 1000⟩
      ⟨Except.ok newTok.accessToken, some newTok, 1⟩

/-- Embedding of `getAccessToken` (auth.ts lines 24-58): return the cached
token when it is still valid past the 60-second safety margin, otherwise run
the refresh exchange. -/
def getAccessToken (now : Int) (st : Option CachedToken)
    (outcome : RefreshOutcome) : TokenCallResult :=
  match st with
  | some tok =>
      if tok.expiresAt > now + 60000 then ⟨Except.ok tok.accessToken, some tok, 0⟩
      else refreshAccessToken now st outcome
  | none => refreshAccessToken now st outcome

/-! ### Signing-credentials resolver (auth.ts getSTSCredentials, and the older
unnamed variant of the module) -/

/-- Credential record returned by `getSTSCredentials` in auth.ts. -/
structure STSCreds where
  accessKeyId : String
  secretAccessKey : String
  sessionToken : Option String
deriving DecidableEq

/-- Embedding of `getSTSCredentials` (auth.ts lines 64-82): use the static AWS
key pair when both variables are truthy, otherwise return dummy empty
credentials.  The function reads the environment only; it performs no network
call and cannot fail. -/
def getSTSCredentials (env : Env) : STSCreds :=
  if truthy env.awsAccessKeyId && truthy env.awsSecretAccessKey then
    ⟨env.awsAccessKeyId.getD (""), env.awsSecretAccessKey.getD (""), none⟩
  else
    ⟨"", "", none⟩

/-- Credential record of the older variant's `getSTSCredentials`: its fields
come from non-null-asserted environment reads and optional regex matches, so
each may be absent at runtime. -/
structure STSCredsV2 where
  accessKeyId : Option String
  secretAccessKey : Option String
  sessionToken : Option String

/-- Outcome of the STS AssumeRole fetch of the older variant, as the code
consumes it: either a transport-level rejection of the fetch itself (which the
code does not catch), or an HTTP reply with its status and the first capture
of each of the three regexes the code runs over the XML body (`none` when the
regex does not match). -/
inductive STSExchangeOutcome where
  | transportError (msg : String)
  | response (status : Nat) (accessKeyMatch : Option String)
      (secretKeyMatch : Option String) (sessionTokenMatch : Option String)

/-- JavaScript `a || b` on an optional regex capture with an environment
fallback: a missing or empty-string capture falls back to the variable. -/
def orElseEnv : Option String → Option String → Option String
  | some s, fallback => if s = "" then fallback else some s
  | none, fallback => fallback

/-- Placeholder role ARN that the older variant treats as not configured. -/
def placeholderRoleArn : String := "arn:aws:iam::YOUR_ACCOUNT:role/YOUR_ROLE"

/-- Role identifier configured: the `AWS_ROLE_ARN` variable is truthy and is
not the placeholder value. -/
def roleConfigured (env : Env) : Bool :=
  truthy env.awsRoleArn && !(env.awsRoleArn == some placeholderRoleArn)

/-- Embedding of the older variant's `getSTSCredentials` (unnamed module,
lines 64-113): without a configured role identifier, return the static key
pair directly with no exchange.  Otherwise the code first awaits the module's
`getAccessToken` (line 78) — a failure there is not caught and propagates —
then issues the AssumeRole fetch (line 80), whose transport-level rejection
likewise propagates uncaught; only a non-ok HTTP status of the exchange falls
back silently to the static key pair (lines 94-100); on ok status the session
credentials are extracted from the XML with static-key fallbacks.  Inputs
`now`, `st` and `refresh` drive the embedded `getAccessToken` call; the first
component is the returned credentials or the propagated error, the second
counts AssumeRole fetch attempts. -/
def getSTSCredentialsV2 (env : Env) (now : Int) (st : Option CachedToken)
    (refresh : RefreshOutcome) (sts : STSExchangeOutcome) :
    Except String STSCredsV2 × Nat :=
  if !truthy env.awsRoleArn || env.awsRoleArn == some placeholderRoleArn then
    (Except.ok ⟨env.awsAccessKeyId, env.awsSecretAccessKey, none⟩, 0)
  else
    match (getAccessToken now st refresh).result with
    | .error msg => (Except.error msg, 0)
    | .ok _ =>
        match sts with
        | .transportError msg => (Except.error msg, 1)
        | .response status accessKeyMatch secretKeyMatch sessionTokenMatch =>
            if !statusOk status then
              (Except.ok ⟨env.awsAccessKeyId, env.awsSecretAccessKey, none⟩, 1)
            else
              (Except.ok ⟨orElseEnv accessKeyMatch env.awsAccessKeyId,
                orElseEnv secretKeyMatch env.awsSecretAccessKey,
                sessionTokenMatch⟩, 1)

/-! ### Credential validation (auth.ts validateCredentials) -/

/-- Result shape of `validateCredentials`. -/
structure ValidationResult where
  valid : Bool
  missing : List String
deriving DecidableEq

/-- Required-keys list of `validateCredentials` (auth.ts lines 95-101), in
source order. -/
def requiredKeys : List String :=
  ["LWA_CLIENT_ID", "LWA_CLIENT_SECRET", "REFRESH_TOKEN", "SELLER_ID",
   "MARKETPLACE_ID"]

/-- Embedding of `validateCredentials` (auth.ts lines 94-109): filter the
required keys down to the falsy ones, and report validity as emptiness of that
list. -/
def validateCredentials (env : Env) : ValidationResult :=
  let missing := requiredKeys.filter (fun key => !truthy (env.get key))
  ⟨missing.length == 0, missing⟩

/-! ### Rate limiter (utils.ts RATE_LIMITS, checkRateLimit) -/

/-- One per-category rate-limit configuration.  `requests` is rational because
the source stores the JavaScript number 0.0167 for the reports category. -/
structure RateLimit where
  requests : ℚ
  period : Int
deriving DecidableEq

/-- Embedding of the `RATE_LIMITS` table (utils.ts lines 163-168).  The source
literal 0.0167 (commented there as 1 per minute) is the rational 167/10000;
every comparison the code makes against it (with the integer list lengths) has
the same truth value for the double and for this rational. -/
def RATE_LIMITS : List (String × RateLimit) :=
  [("default", ⟨10, 1000⟩),
   ("inventory", ⟨2, 1000⟩),
   ("orders", ⟨5, 1000⟩),
   ("reports", ⟨mkRat 167 10000, 1000⟩)]

/-- Category lookup `RATE_LIMITS[apiType] || RATE_LIMITS.default`
(utils.ts line 176). -/
def rateLimitFor (apiType : String) : RateLimit :=
  match RATE_LIMITS.lookup apiType with
  | some limit => limit
  | none => ⟨10, 1000⟩

/-- Embedding of `checkRateLimit` (utils.ts lines 175-195) on one category's
timestamp log.  Returns the wait duration the call suspends for (0 when it
does not suspend) and the updated log.  Pruning keeps timestamps `ts` with
`now - ts < period`; when the pruned length reaches the configured count the
wait is `period - (now - oldest)`; the timestamp pushed afterwards is the
`now` captured at entry (the code pushes the same `now` variable it read
before any wait).  The empty-pruned-log arm of the guarded branch is
unreachable for the shipped positive configurations (the source would index
`[0]` of an empty array there). -/
def checkRateLimit (limit : RateLimit) (now : Int) (log : List Int) :
    Int × List Int :=
  let pruned := log.filter (fun ts => decide (now - ts < limit.period))
  if limit.requests ≤ (pruned.length : ℚ) then
    match pruned with
    | t0 :: _ => (limit.period - (now - t0), pruned ++ [now])
    | [] => (0, pruned ++ [now])
  else
    (0, pruned ++ [now])

/-- One rate-limiter call against the whole per-category state
(`requestTimestamps` of utils.ts): only the named category's log is read and
written. -/
def throttleStep (state : String → List Int) (apiType : String) (now : Int) :
    Int × (String → List Int) :=
  let r := checkRateLimit (rateLimitFor apiType) now (state apiType)
  (r.1, fun c => if c = apiType then r.2 else state c)

/-! ### Request executor (utils.ts spApiRequest) -/

/-- JavaScript `String.prototype.split` on a single-character separator, over
the character list. -/
def splitChars (sep : Char) : List Char → List (List Char)
  | [] => [[]]
  | c :: rest =>
      let r := splitChars sep rest
      if c = sep then [] :: r
      else
        match r with
        | [] => [[c]]
        | g :: gs => (c :: g) :: gs

/-- `path.split('/')` as the source uses it. -/
def splitString (sep : Char) (s : String) : List String :=
  (splitChars sep s.toList).map String.mk

/-- Rate-limit category derivation `path.split('/')[1] || 'default'`
(utils.ts line 234): a missing or empty second segment falls back to
`default`. -/
def apiTypeOf (path : String) : String :=
  match (splitString '/' path)[1]? with
  | some seg => if seg = "" then "default" else seg
  | none => "default"

/-- HTTP reply as the executor consumes it: status code and body text. -/
structure HttpResponse where
  status : Nat
  body : String

/-- Normalized envelope `SPAPIResponse` of utils.ts. -/
structure SPAPIResponse (T : Type) where
  success : Bool
  data : Option T
  error : Option String
  statusCode : Option Nat

/-- Effects of one executor run, in the order the source awaits them. -/
inductive ExecEvent where
  | tokenFetch
  | credsFetch
  | rateLimitGate (category : String)
  | networkCall
deriving DecidableEq

/-- Embedding of `spApiRequest` (utils.ts lines 218-297).  Inputs: the request
path, the token-manager outcome (line 225), the fetch outcome (line 263, a
transport exception message or an HTTP reply), and the `JSON.parse` attempt on
a body text (lines 272-276, `none` when the body is not valid JSON).  Output:
the normalized envelope and the trace of awaited effects in source order —
token fetch (line 225), credentials fetch (line 226), rate-limiter gate for
the category of the first path segment (line 235), network call (line 263).
Every exception is caught by the surrounding try/catch (lines 291-296) and
becomes a failure envelope with the exception's message and no status code, so
the function is total. -/
def spApiRequest {T : Type} (path : String)
    (tokenResult : Except String String)
    (fetchResult : Except String HttpResponse)
    (parse : String → Option T) : SPAPIResponse T × List ExecEvent :=
  match tokenResult with
  | .error msg => (⟨false, none, some msg, none⟩, [.tokenFetch])
  | .ok _ =>
      let apiType := apiTypeOf path
      match fetchResult with
      | .error msg =>
          (⟨false, none, some msg, none⟩,
           [.tokenFetch, .credsFetch, .rateLimitGate apiType, .networkCall])
      | .ok resp =>
          let responseData := parse resp.body
          let envelope : SPAPIResponse T :=
            if !statusOk resp.status then
              ⟨false, none,
               some (if resp.body = "" then "HTTP " ++ toString resp.status
                     else resp.body),
               some resp.status⟩
            else
              ⟨true, responseData, none, some resp.status⟩
          (envelope,
           [.tokenFetch, .credsFetch, .rateLimitGate apiType, .networkCall])

/-- Index of the first occurrence of an event in a trace. -/
def firstIdx (e : ExecEvent) (tr : List ExecEvent) : Nat :=
  tr.findIdx (fun x => x == e)

/-- Event `e` happens before event `f` in a trace: both occur, and the first
occurrence of `e` precedes the first occurrence of `f`. -/
def occursBefore (e f : ExecEvent) (tr : List ExecEvent) : Prop :=
  e ∈ tr ∧ f ∈ tr ∧ firstIdx e tr < firstIdx f tr

instance (e f : ExecEvent) (tr : List ExecEvent) :
    Decidable (occursBefore e f tr) :=
  inferInstanceAs (Decidable (e ∈ tr ∧ f ∈ tr ∧ firstIdx e tr < firstIdx f tr))

/-! ### Request signing (utils.ts lines 238-267, and the aws4 dependency) -/

/-- Header set built at utils.ts lines 242-246 before signing: content type,
the access-token header, then the caller-supplied headers (later entries
taking precedence on duplicate names, as in object spread). -/
def buildHeaders (accessToken : String)
    (callerHeaders : List (String × String)) : List (String × String) :=
  [("Content-Type", "application/json"),
   ("x-amz-access-token", accessToken)] ++ callerHeaders

/-- Minimal model of `aws4.sign` from the aws4 dependency (not part of this
repository), reflecting its unconditional behavior: `sign` canonicalizes the
request and always sets the X-Amz-Date header and the Authorization header
computed from whatever credentials it is given — including empty-string
credentials — plus the X-Amz-Security-Token header when a session token is
present.  The date, scope and hex signature are abstracted as placeholder
strings; only the presence and credential dependence of the headers matter
here. -/
def aws4sign (headers : List (String × String)) (creds : STSCreds) :
    List (String × String) :=
  headers
    ++ (match creds.sessionToken with
        | some tk => [("X-Amz-Security-Token", tk)]
        | none => [])
    ++ [("X-Amz-Date", "<amz-date>"),
        ("Authorization",
         "AWS4-HMAC-SHA256 Credential=" ++ creds.accessKeyId
           ++ "/<scope>, SignedHeaders=<signed-headers>, Signature=<hex>")]

/-- Headers of the outgoing network call (utils.ts lines 256-267): the fetch
is issued with `signedRequest.headers`, the result of signing the built header
set with the resolved credentials — there is no branch on credential
emptiness. -/
def outgoingHeaders (accessToken : String)
    (callerHeaders : List (String × String)) (creds : STSCreds) :
    List (String × String) :=
  aws4sign (buildHeaders accessToken callerHeaders) creds

/-! ### Shared helper lemmas -/

/-- Every refresh path performs exactly one network call to the identity
provider. -/
theorem refreshAccessToken_networkCalls (now : Int) (st : Option CachedToken)
    (outcome : RefreshOutcome) :
    (refreshAccessToken now st outcome).networkCalls = 1 := by
  cases outcome <;> rfl

/-- Cache-hit equation of `getAccessToken`: a cached token strictly beyond the
60-second margin is returned as is, with no state change and no network
call. -/
theorem getAccessToken_hit (now : Int) (tok : CachedToken)
    (outcome : RefreshOutcome) (h : tok.expiresAt > now + 60000) :
    getAccessToken now (some tok) outcome
      = ⟨Except.ok tok.accessToken, some tok, 0⟩ := by
  simp [getAccessToken, h]

/-! ### Claim theorems -/

/-- Claim C1: `spApiRequest` never throws; for every request, a non-2xx HTTP
reply yields a failure envelope carrying the body text (or `HTTP <status>`
when the body is empty) and the status code; a transport-level exception
yields a failure envelope with the exception message and no status code; a
2xx reply yields a success envelope with the JSON-parsed body (absent when
the body is not valid JSON) and the status code. -/
theorem spApiRequest_envelope_normalization {T : Type} (path : String)
    (parse : String → Option T) (tokenResult : Except String String)
    (fetchResult : Except String HttpResponse) :
    (∀ tok msg, tokenResult = Except.ok tok → fetchResult = Except.error msg →
        (spApiRequest path tokenResult fetchResult parse).1
          = ⟨false, none, some msg, none⟩)
    ∧ (∀ tok resp, tokenResult = Except.ok tok → fetchResult = Except.ok resp →
        statusOk resp.status = false →
        (spApiRequest path tokenResult fetchResult parse).1
          = ⟨false, none,
              some (if resp.body = "" then "HTTP " ++ toString resp.status
                    else resp.body),
              some resp.status⟩)
    ∧ (∀ tok resp, tokenResult = Except.ok tok → fetchResult = Except.ok resp →
        statusOk resp.status = true →
        (spApiRequest path tokenResult fetchResult parse).1
          = ⟨true, parse resp.body, none, some resp.status⟩) := by
  refine ⟨?_, ?_, ?_⟩
  · intro tok msg h1 h2
    subst h1; subst h2
    rfl
  · intro tok resp h1 h2 hstat
    subst h1; subst h2
    simp [spApiRequest, hstat]
  · intro tok resp h1 h2 hstat
    subst h1; subst h2
    simp [spApiRequest, hstat]

/-- Witness for C1: a simulated 404 with body text `not found` yields the
failure envelope with that body and status 404. -/
theorem spApiRequest_envelope_normalization_witness :
    (spApiRequest ("/orders/v0/orders") (Except.ok ("tok"))
        (Except.ok ⟨404, "not found"⟩) (fun _ => (none : Option Unit))).1
      = ⟨false, none, some ("not found"), some 404⟩ := by
  have h := (spApiRequest_envelope_normalization ("/orders/v0/orders")
      (fun _ => (none : Option Unit)) (Except.ok ("tok"))
      (Except.ok ⟨404, "not found"⟩)).2.1 ("tok") ⟨404, "not found"⟩ rfl rfl
      (by decide)
  simpa using h

/-- Claim C5 (failing behavior): with no AWS key pair configured the resolver
returns the empty placeholder credentials, yet the executor's outgoing header
set still contains a computed Authorization signature header, because
`aws4.sign` is invoked unconditionally — contradicting signature-less
operation on empty credentials. -/
theorem signing_always_applied :
    getSTSCredentials ⟨none, none, none, none, none, none, none, none⟩
      = ⟨"", "", none⟩
    ∧ ("Authorization" ∈
        (outgoingHeaders ("tok") []
          (getSTSCredentials
            ⟨none, none, none, none, none, none, none, none⟩)).map
          Prod.fst) := by
  decide

/-- Claim C6 (failing behavior): the shipped `reports` configuration is
0.0167 requests per 1000 ms window, so pruning forgets a call after one
second: two `reports` calls 2000 ms apart are both admitted without delay,
violating the documented 1-request-per-minute bound. -/
theorem reports_window_failing :
    rateLimitFor ("reports") = ⟨mkRat 167 10000, 1000⟩
    ∧ (checkRateLimit (rateLimitFor ("reports")) 0 []).1 = 0
    ∧ (checkRateLimit (rateLimitFor ("reports")) 2000
        (checkRateLimit (rateLimitFor ("reports")) 0 []).2).1 = 0
    ∧ (checkRateLimit (rateLimitFor ("reports")) 2000
        (checkRateLimit (rateLimitFor ("reports")) 0 []).2).2 = [2000] := by
  decide

/-- Counterexample to claim C7: at a call that suspends (configuration 2 per
1000 ms, log `[0, 100]`, entry time 200) the wait is 800 ms, yet the appended
timestamp is the pre-wait 200, not the post-wait instant 200 + 800. -/
theorem checkRateLimit_postwait_counterexample :
    (checkRateLimit ⟨2, 1000⟩ 200 [0, 100]).1 = 800
    ∧ (checkRateLimit ⟨2, 1000⟩ 200 [0, 100]).2 = [0, 100, 200]
    ∧ (200 : Int) ≠ 200 + 800 := by
  decide

/-- Claim C7 as amended: on every call, including those that suspend, the
timestamp appended to the category's log is the `now` captured at entry
(the same value used for pruning and for the wait computation), never the
post-wait instant. -/
theorem checkRateLimit_appends_prewait_now (limit : RateLimit) (now : Int)
    (log : List Int) :
    (checkRateLimit limit now log).2
      = log.filter (fun ts => decide (now - ts < limit.period)) ++ [now]
    ∧ (checkRateLimit limit now log).2.getLast? = some now := by
  have h2 : (checkRateLimit limit now log).2
      = log.filter (fun ts => decide (now - ts < limit.period)) ++ [now] := by
    simp only [checkRateLimit]
    split
    · split <;> rfl
    · rfl
  refine ⟨h2, ?_⟩
  rw [h2]
  exact List.getLast?_concat _

/-- Claim C10: when the token-refresh exchange answers with a non-success
status, `getAccessToken` throws the `Failed to refresh token` error and the
cached-token state is exactly what it was before the call — a previously
cached (even near-expiry) token is neither cleared nor replaced. -/
theorem getAccessToken_refresh_failure_preserves_cache (now : Int)
    (st : Option CachedToken) (body : String)
    (h : cacheValid now st = false) :
    getAccessToken now st (RefreshOutcome.httpError body)
      = ⟨Except.error ("Failed to refresh token: " ++ body), st, 1⟩ := by
  cases st with
  | none => rfl
  | some tok =>
      have h' : ¬ (tok.expiresAt > now + 60000) := by
        simpa [cacheValid] using h
      simp [getAccessToken, refreshAccessToken, h']

/-- Witness for C10: a failed refresh at a near-expiry cached token keeps the
old cache entry untouched. -/
theorem getAccessToken_refresh_failure_preserves_cache_witness :
    getAccessToken 0 (some ⟨"old", 59000⟩) (RefreshOutcome.httpError ("bad"))
      = ⟨Except.error ("Failed to refresh token: " ++ "bad"),
          some ⟨"old", 59000⟩, 1⟩ :=
  getAccessToken_refresh_failure_preserves_cache 0 (some ⟨"old", 59000⟩)
    ("bad") (by decide)

/-- Claim C2: `getAccessToken` returns the cached token value with zero
network calls to the identity provider exactly when a cached token exists
whose `expiresAt` is strictly greater than `now + 60000`; a token expiring at
`now + 59000` triggers a refresh exchange, one at `now + 61000` does not, and
a second sequential call within the cached token's validity window makes zero
network calls. -/
theorem getAccessToken_cache_spec (now : Int) (st : Option CachedToken)
    (outcome : RefreshOutcome) :
    ((getAccessToken now st outcome).networkCalls = 0 ↔
        ∃ tok, st = some tok ∧ tok.expiresAt > now + 60000)
    ∧ (∀ tok, st = some tok → tok.expiresAt > now + 60000 →
        getAccessToken now st outcome
          = ⟨Except.ok tok.accessToken, some tok, 0⟩)
    ∧ (∀ tok, st = some tok → tok.expiresAt = now + 59000 →
        (getAccessToken now st outcome).networkCalls = 1)
    ∧ (∀ tok, st = some tok → tok.expiresAt = now + 61000 →
        getAccessToken now st outcome
          = ⟨Except.ok tok.accessToken, some tok, 0⟩)
    ∧ (∀ (now2 : Int) (outcome2 : RefreshOutcome) (tok2 : CachedToken),
        (getAccessToken now st outcome).state = some tok2 →
        tok2.expiresAt > now2 + 60000 →
        (getAccessToken now2 (getAccessToken now st outcome).state
            outcome2).networkCalls = 0) := by
  refine ⟨?_, ?_, ?_, ?_, ?_⟩
  · cases st with
    | none => simp [getAccessToken, refreshAccessToken_networkCalls]
    | some tok =>
        by_cases h : tok.expiresAt > now + 60000
        · simp [getAccessToken_hit now tok outcome h, h]
        · simp [getAccessToken, h, refreshAccessToken_networkCalls]
  · intro tok hst h
    subst hst
    exact getAccessToken_hit now tok outcome h
  · intro tok hst h
    subst hst
    have h' : ¬ (tok.expiresAt > now + 60000) := by omega
    simp [getAccessToken, h', refreshAccessToken_networkCalls]
  · intro tok hst h
    subst hst
    exact getAccessToken_hit now tok outcome (by omega)
  · intro now2 outcome2 tok2 hst hval
    rw [hst]
    simp [getAccessToken_hit now2 tok2 outcome2 hval]

/-- Witness for C2: at the 60-second boundary, a token expiring 61000 ms from
now is reused with zero network calls and a token expiring 59000 ms from now
triggers one refresh exchange. -/
theorem getAccessToken_cache_spec_witness :
    getAccessToken 0 (some ⟨"cached", 61000⟩) (RefreshOutcome.httpError ("e"))
      = ⟨Except.ok ("cached"), some ⟨"cached", 61000⟩, 0⟩
    ∧ (getAccessToken 0 (some ⟨"cached", 59000⟩)
        (RefreshOutcome.httpError ("e"))).networkCalls = 1 := by
  constructor
  · exact (getAccessToken_cache_spec 0 (some ⟨"cached", 61000⟩)
      (RefreshOutcome.httpError ("e"))).2.2.2.1 ⟨"cached", 61000⟩ rfl (by decide)
  · exact (getAccessToken_cache_spec 0 (some ⟨"cached", 59000⟩)
      (RefreshOutcome.httpError ("e"))).2.2.1 ⟨"cached", 59000⟩ rfl (by decide)

/-- Claim C3: with configuration 2 requests per 1000 ms, three back-to-back
calls leave the first and second undelayed and delay the third until exactly
1000 ms after the first call's timestamp (hence at least 1000 ms); and in
general, whenever the post-pruning log is nonempty with length at least the
configured count, the wait equals `periodMillis - (now - oldestTimestamp)`. -/
theorem checkRateLimit_window_spec (t1 t2 t3 : Int)
    (h12 : t1 ≤ t2) (h23 : t2 ≤ t3) (h31 : t3 < t1 + 1000) :
    (checkRateLimit ⟨2, 1000⟩ t1 []).1 = 0
    ∧ (checkRateLimit ⟨2, 1000⟩ t2 (checkRateLimit ⟨2, 1000⟩ t1 []).2).1 = 0
    ∧ (checkRateLimit ⟨2, 1000⟩ t3
        (checkRateLimit ⟨2, 1000⟩ t2 (checkRateLimit ⟨2, 1000⟩ t1 []).2).2).1
        = 1000 - (t3 - t1)
    ∧ t3 + (checkRateLimit ⟨2, 1000⟩ t3
        (checkRateLimit ⟨2, 1000⟩ t2 (checkRateLimit ⟨2, 1000⟩ t1 []).2).2).1
        = t1 + 1000
    ∧ (∀ (limit : RateLimit) (now : Int) (log : List Int) (t0 : Int)
        (rest : List Int),
        log.filter (fun ts => decide (now - ts < limit.period)) = t0 :: rest →
        limit.requests ≤ (((t0 :: rest).length : Nat) : ℚ) →
        (checkRateLimit limit now log).1 = limit.period - (now - t0)) := by
  have hc2 : t2 - t1 < 1000 := by omega
  have hc31 : t3 - t1 < 1000 := by omega
  have hc32 : t3 - t2 < 1000 := by omega
  have e1 : checkRateLimit ⟨2, 1000⟩ t1 [] = (0, [t1]) := by
    norm_num [checkRateLimit, List.filter_nil]
  have e2 : checkRateLimit ⟨2, 1000⟩ t2 [t1] = (0, [t1, t2]) := by
    norm_num [checkRateLimit, List.filter_cons, hc2]
  have e3 : (checkRateLimit ⟨2, 1000⟩ t3 [t1, t2]).1 = 1000 - (t3 - t1) := by
    norm_num [checkRateLimit, List.filter_cons, hc31, hc32]
  refine ⟨by rw [e1], ?_, ?_, ?_, ?_⟩
  · rw [e1, e2]
  · rw [e1, e2]
    exact e3
  · rw [e1, e2, e3]
    omega
  · intro limit now log t0 rest hfilter hlen
    simp only [checkRateLimit]
    rw [hfilter, if_pos hlen]

/-- Witness for C3: three calls at times 0, 5, 10 under the 2-per-1000ms
configuration — no wait, no wait, then a wait of 990 ms resuming at 1000. -/
theorem checkRateLimit_window_spec_witness :
    (checkRateLimit ⟨2, 1000⟩ 0 []).1 = 0
    ∧ (checkRateLimit ⟨2, 1000⟩ 5 (checkRateLimit ⟨2, 1000⟩ 0 []).2).1 = 0
    ∧ (checkRateLimit ⟨2, 1000⟩ 10
        (checkRateLimit ⟨2, 1000⟩ 5 (checkRateLimit ⟨2, 1000⟩ 0 []).2).2).1
        = 1000 - (10 - 0) := by
  have h := checkRateLimit_window_spec 0 5 10 (by decide) (by decide) (by decide)
  exact ⟨h.1, h.2.1, h.2.2.1⟩

/-- Counterexample to claim C4: in the executor's trace for a concrete
request, the rate-limiter gate does occur but does not happen before the token
fetch — the source awaits `getAccessToken` (line 225) before
`checkRateLimit` (line 235). -/
theorem executor_order_counterexample :
    (ExecEvent.rateLimitGate ("orders") ∈
      (spApiRequest ("/orders/v0/orders") (Except.ok ("tok"))
        (Except.ok ⟨200, "ok"⟩) (fun _ => (none : Option Unit))).2)
    ∧ ¬ occursBefore (ExecEvent.rateLimitGate ("orders")) ExecEvent.tokenFetch
        ((spApiRequest ("/orders/v0/orders") (Except.ok ("tok"))
          (Except.ok ⟨200, "ok"⟩) (fun _ => (none : Option Unit))).2) := by
  decide

/-- Claim C4 as amended: in every executor run whose trace reaches the
rate-limiter gate, the token fetch happens before the gate and the gate
happens before the network call, and the gate's category is the one derived
from the first path segment. -/
theorem executor_order_amended {T : Type} (path : String)
    (tokenResult : Except String String)
    (fetchResult : Except String HttpResponse) (parse : String → Option T) :
    (ExecEvent.rateLimitGate (apiTypeOf path)
        ∈ (spApiRequest path tokenResult fetchResult parse).2 →
      occursBefore ExecEvent.tokenFetch
          (ExecEvent.rateLimitGate (apiTypeOf path))
          (spApiRequest path tokenResult fetchResult parse).2
        ∧ occursBefore (ExecEvent.rateLimitGate (apiTypeOf path))
          ExecEvent.networkCall
          (spApiRequest path tokenResult fetchResult parse).2)
    ∧ (∀ c, ExecEvent.rateLimitGate c
        ∈ (spApiRequest path tokenResult fetchResult parse).2 →
        c = apiTypeOf path) := by
  have b1 : (ExecEvent.tokenFetch == ExecEvent.rateLimitGate (apiTypeOf path))
      = false := rfl
  have b2 : (ExecEvent.credsFetch == ExecEvent.rateLimitGate (apiTypeOf path))
      = false := rfl
  have b3 : (ExecEvent.rateLimitGate (apiTypeOf path) == ExecEvent.networkCall)
      = false := rfl
  have b4 : (ExecEvent.tokenFetch == ExecEvent.networkCall) = false := rfl
  have b5 : (ExecEvent.credsFetch == ExecEvent.networkCall) = false := rfl
  cases tokenResult with
  | error msg => simp [spApiRequest, occursBefore]
  | ok tok =>
      cases fetchResult with
      | error msg =>
          simp [spApiRequest, occursBefore, firstIdx, List.findIdx_cons, b1,
            b2, b3, b4, b5, beq_self_eq_true]
      | ok resp =>
          simp [spApiRequest, occursBefore, firstIdx, List.findIdx_cons, b1,
            b2, b3, b4, b5, beq_self_eq_true]

/-- Witness for C4's amended theorem at a concrete request. -/
theorem executor_order_amended_witness :
    occursBefore ExecEvent.tokenFetch
      (ExecEvent.rateLimitGate (apiTypeOf ("/orders/v0/orders")))
      (spApiRequest ("/orders/v0/orders") (Except.ok ("tok"))
        (Except.ok ⟨200, "ok"⟩) (fun _ => (none : Option Unit))).2 :=
  ((executor_order_amended ("/orders/v0/orders") (Except.ok ("tok"))
      (Except.ok ⟨200, "ok"⟩) (fun _ => (none : Option Unit))).1
    (by decide)).1

/-- Counterexample to claim C8: the older variant's resolver does fail.  With
a real role ARN configured, a failed access-token refresh awaited at line 78
propagates its error out of `getSTSCredentials` before any exchange, and a
transport-level rejection of the AssumeRole fetch at line 80 propagates as
well instead of falling back to the static key pair. -/
theorem stsCredentials_neverfails_counterexample :
    ((getSTSCredentialsV2
        ⟨none, none, none, none, none, some ("AK"), some ("SK"),
         some ("arn:aws:iam::123456789012:role/SPAPIRole")⟩ 0 none
        (RefreshOutcome.httpError ("invalid_grant"))
        (STSExchangeOutcome.response 200 none none none)).1
      = Except.error ("Failed to refresh token: " ++ "invalid_grant"))
    ∧ ((getSTSCredentialsV2
        ⟨none, none, none, none, none, some ("AK"), some ("SK"),
         some ("arn:aws:iam::123456789012:role/SPAPIRole")⟩ 0
        (some ⟨"cached", 120000⟩) (RefreshOutcome.httpError ("x"))
        (STSExchangeOutcome.transportError
          ("getaddrinfo ENOTFOUND sts.amazonaws.com"))).1
      = Except.error ("getaddrinfo ENOTFOUND sts.amazonaws.com")) :=
  ⟨rfl, rfl⟩

/-- Claim C8 as amended: the shipped resolver never fails — it reads only the
environment, returning the empty placeholder credentials when the static key
pair is not configured and the static pair when it is, and it never attempts
any exchange.  In the older variant, the AssumeRole exchange is attempted
only when a role identifier is configured (truthy and not the placeholder
ARN); with no role configured the static pair is returned with no exchange
and no failure; a non-success HTTP status of the exchange falls back silently
to the static key pair; but a failure of the access-token fetch awaited
before the exchange, or a transport-level rejection of the exchange fetch
itself, propagates an error to the caller instead of falling back. -/
theorem stsCredentials_spec (env : Env) (now : Int) (st : Option CachedToken)
    (refresh : RefreshOutcome) (sts : STSExchangeOutcome) :
    ((truthy env.awsAccessKeyId && truthy env.awsSecretAccessKey) = false →
        getSTSCredentials env = ⟨"", "", none⟩)
    ∧ (∀ keyId secret, env.awsAccessKeyId = some keyId →
        env.awsSecretAccessKey = some secret → keyId ≠ "" → secret ≠ "" →
        getSTSCredentials env = ⟨keyId, secret, none⟩)
    ∧ ((getSTSCredentialsV2 env now st refresh sts).2 = 1 →
        roleConfigured env = true)
    ∧ (roleConfigured env = false →
        getSTSCredentialsV2 env now st refresh sts
          = (Except.ok ⟨env.awsAccessKeyId, env.awsSecretAccessKey, none⟩, 0))
    ∧ (∀ tok status ak sk tkm, roleConfigured env = true →
        (getAccessToken now st refresh).result = Except.ok tok →
        sts = STSExchangeOutcome.response status ak sk tkm →
        statusOk status = false →
        getSTSCredentialsV2 env now st refresh sts
          = (Except.ok ⟨env.awsAccessKeyId, env.awsSecretAccessKey, none⟩, 1))
    ∧ (∀ msg, roleConfigured env = true →
        (getAccessToken now st refresh).result = Except.error msg →
        getSTSCredentialsV2 env now st refresh sts = (Except.error msg, 0))
    ∧ (∀ tok msg, roleConfigured env = true →
        (getAccessToken now st refresh).result = Except.ok tok →
        sts = STSExchangeOutcome.transportError msg →
        getSTSCredentialsV2 env now st refresh sts
          = (Except.error msg, 1)) := by
  have hcond : (!truthy env.awsRoleArn
      || env.awsRoleArn == some placeholderRoleArn) = !roleConfigured env := by
    cases h1 : truthy env.awsRoleArn <;>
      cases h2 : (env.awsRoleArn == some placeholderRoleArn) <;>
        simp [roleConfigured, h1, h2]
  refine ⟨?_, ?_, ?_, ?_, ?_, ?_, ?_⟩
  · intro h
    simp [getSTSCredentials, h]
  · intro keyId secret h1 h2 hk hs
    simp [getSTSCredentials, truthy, h1, h2, hk, hs]
  · intro h
    by_contra hr
    have hr' : roleConfigured env = false := by
      revert hr
      cases roleConfigured env <;> simp
    simp only [getSTSCredentialsV2] at h
    rw [hcond, hr'] at h
    simp at h
  · intro hr0
    simp only [getSTSCredentialsV2]
    rw [hcond, hr0]
    rfl
  · intro tok status ak sk tkm hr htok hsts hstat
    subst hsts
    simp only [getSTSCredentialsV2]
    rw [hcond, hr]
    simp [htok, hstat]
  · intro msg hr htok
    simp only [getSTSCredentialsV2]
    rw [hcond, hr]
    simp [htok]
  · intro tok msg hr htok hsts
    subst hsts
    simp only [getSTSCredentialsV2]
    rw [hcond, hr]
    simp [htok]

/-- Witness for C8's amended theorem: the shipped resolver returns a
configured static pair unchanged, and the older variant falls back to the
static pair on a non-ok (403) exchange status when the token fetch
succeeded. -/
theorem stsCredentials_spec_witness :
    getSTSCredentials
        ⟨none, none, none, none, none, some ("AKID"), some ("SECRET"), none⟩
      = ⟨"AKID", "SECRET", none⟩
    ∧ getSTSCredentialsV2
        ⟨none, none, none, none, none, some ("AKID"), some ("SECRET"),
         some ("arn:aws:iam::123456789012:role/SPAPIRole")⟩ 0
        (some ⟨"cached", 120000⟩) (RefreshOutcome.httpError ("x"))
        (STSExchangeOutcome.response 403 none none none)
      = (Except.ok ⟨some ("AKID"), some ("SECRET"), none⟩, 1) := by
  constructor
  · exact (stsCredentials_spec
        ⟨none, none, none, none, none, some ("AKID"), some ("SECRET"), none⟩
        0 none (RefreshOutcome.httpError ("x"))
        (STSExchangeOutcome.response 403 none none none)).2.1
      ("AKID") ("SECRET") rfl rfl (by decide) (by decide)
  · exact (stsCredentials_spec
        ⟨none, none, none, none, none, some ("AKID"), some ("SECRET"),
         some ("arn:aws:iam::123456789012:role/SPAPIRole")⟩ 0
        (some ⟨"cached", 120000⟩) (RefreshOutcome.httpError ("x"))
        (STSExchangeOutcome.response 403 none none none)).2.2.2.2.1
      ("cached") 403 none none none (by decide) rfl rfl (by decide)

/-- Claim C9: `validateCredentials` never throws; it is valid with an empty
missing list exactly when every required key is truthy, the missing list is
the subsequence of the required-keys list holding exactly the falsy keys (so
input order is preserved), and with exactly REFRESH_TOKEN and SELLER_ID unset
it returns invalid with missing `[REFRESH_TOKEN, SELLER_ID]`. -/
theorem validateCredentials_spec (env : Env) :
    ((validateCredentials env).valid = true ↔
        ∀ k ∈ requiredKeys, truthy (env.get k) = true)
    ∧ ((validateCredentials env).valid = true ↔
        (validateCredentials env).missing = [])
    ∧ (validateCredentials env).missing.Sublist requiredKeys
    ∧ (∀ k, k ∈ (validateCredentials env).missing ↔
        (k ∈ requiredKeys ∧ truthy (env.get k) = false))
    ∧ (truthy env.lwaClientId = true → truthy env.lwaClientSecret = true →
        truthy env.refreshToken = false → truthy env.sellerId = false →
        truthy env.marketplaceId = true →
        validateCredentials env = ⟨false, ["REFRESH_TOKEN", "SELLER_ID"]⟩) := by
  refine ⟨?_, ?_, ?_, ?_, ?_⟩
  · simp [validateCredentials, List.length_eq_zero, List.filter_eq_nil_iff]
  · simp [validateCredentials, List.length_eq_zero]
  · exact List.filter_sublist _
  · intro k
    simp [validateCredentials, List.mem_filter]
  · intro h1 h2 h3 h4 h5
    have g1 : env.get ("LWA_CLIENT_ID") = env.lwaClientId := rfl
    have g2 : env.get ("LWA_CLIENT_SECRET") = env.lwaClientSecret := rfl
    have g3 : env.get ("REFRESH_TOKEN") = env.refreshToken := rfl
    have g4 : env.get ("SELLER_ID") = env.sellerId := rfl
    have g5 : env.get ("MARKETPLACE_ID") = env.marketplaceId := rfl
    simp [validateCredentials, requiredKeys, List.filter_cons, g1, g2, g3,
      g4, g5, h1, h2, h3, h4, h5]

/-- Witness for C9: a configuration with LWA_CLIENT_ID, LWA_CLIENT_SECRET and
MARKETPLACE_ID set and REFRESH_TOKEN, SELLER_ID unset yields exactly
missing `[REFRESH_TOKEN, SELLER_ID]`. -/
theorem validateCredentials_spec_witness :
    validateCredentials
        ⟨some ("id"), some ("sec"), none, none, some ("mkt"), none, none, none⟩
      = ⟨false, ["REFRESH_TOKEN", "SELLER_ID"]⟩ :=
  (validateCredentials_spec
      ⟨some ("id"), some ("sec"), none, none, some ("mkt"), none, none,
       none⟩).2.2.2.2 (by decide) (by decide) (by decide) (by decide)
    (by decide)

end SystemSeller
